import Mathlib

/-!
Verification of the creature-flocking core of the wealth-ocean visualizer.

The development shallowly embeds the boid simulation of
`src/creatures/FishSchool.js` (velocity forces, neighbor sampling, speed
clamping, position integration, depth and horizontal containment, and the
per-instance transform emission of `FishSchool.update`), together with the
horizontal camera clamp of `src/ui/Controls.js` and the whale drift
reflection of `src/creatures/CreatureManager.js`.

Modelling conventions:
- JavaScript numbers are modelled as real numbers (`ℝ`).
- `THREE.Vector3` is the structure `Vec3`; `Vector3.normalize` divides by
  `length() || 1`, so the zero vector is its own normalization, exactly as
  in three.js.
- `Math.random()` draws are passed in explicitly (each draw is a real in
  `[0, 1)`), so one tick is a deterministic function of its inputs plus the
  supplied draws.
- The creature-type and swim-pattern tables (`CREATURE_TYPES`,
  `SWIM_PATTERNS` from `data/creatureConfig.js`) are passed as lookup
  functions returning `Option`; a JavaScript property access on an
  `undefined` lookup result is modelled as an `Except.error` carrying a
  `JsError` value.
- The in-place mutation of `this.fishes[i]` inside the per-tick loop is
  modelled by a left fold that updates the list entry by entry, so a later
  creature sees the already-updated state of earlier creatures, exactly as
  the single-pass JavaScript loop does.
-/

/-- Shallow embedding of `THREE.Vector3`: three real components. -/
@[ext]
structure Vec3 where
  x : ℝ
  y : ℝ
  z : ℝ

/-- Vector addition (`Vector3.add`). -/
def Vec3.add (a b : Vec3) : Vec3 := ⟨a.x + b.x, a.y + b.y, a.z + b.z⟩

/-- Vector subtraction (`Vector3.sub` / `subVectors`). -/
def Vec3.sub (a b : Vec3) : Vec3 := ⟨a.x - b.x, a.y - b.y, a.z - b.z⟩

/-- Scalar multiplication (`Vector3.multiplyScalar`). -/
def Vec3.smul (v : Vec3) (c : ℝ) : Vec3 := ⟨v.x * c, v.y * c, v.z * c⟩

/-- The zero vector (`new THREE.Vector3()`). -/
def Vec3.zero : Vec3 := ⟨0, 0, 0⟩

/-- Squared length (`Vector3.lengthSq`). -/
def Vec3.lengthSq (v : Vec3) : ℝ := v.x ^ 2 + v.y ^ 2 + v.z ^ 2

/-- Euclidean length (`Vector3.length`). -/
noncomputable def Vec3.length (v : Vec3) : ℝ :=
  Real.sqrt (v.x ^ 2 + v.y ^ 2 + v.z ^ 2)

/-- Normalization (`Vector3.normalize`): three.js divides by
`this.length() || 1`, so a zero-length vector is left unchanged. -/
noncomputable def Vec3.normalize (v : Vec3) : Vec3 :=
  v.smul (1 / (if v.length = 0 then 1 else v.length))

/-- Distance between two points (`Vector3.distanceTo`). -/
noncomputable def Vec3.distanceTo (a b : Vec3) : ℝ := (a.sub b).length

/-- One entry of `SWIM_PATTERNS` (the behavior-profile table): steering
weights read by `applySwimmingBehavior`. -/
structure Pattern where
  cohesion : ℝ
  separation : ℝ
  alignment : ℝ
  noise : ℝ
  verticalBias : ℝ

/-- The fields of a `CREATURE_TYPES` entry (the archetype table) that the
simulation core reads: `speed`, `schoolRadius`, `baseSize`, and the key
`swimPattern` used for the behavior-profile lookup (keys are modelled as
natural-number codes). -/
structure Config where
  speed : ℝ
  schoolRadius : ℝ
  baseSize : ℝ
  swimPattern : ℕ

/-- The depth range of a wealth bracket (`bracket.depth.min/max`). -/
structure DepthBracket where
  depthMin : ℝ
  depthMax : ℝ

/-- One creature record as created by `initializeFish`: position, velocity,
scale, animation phase, and the per-instance swim-frequency jitter. -/
structure Fish where
  position : Vec3
  velocity : Vec3
  scale : ℝ
  phase : ℝ
  swimFrequency : ℝ

/-- Placeholder record used only as the default of out-of-range list reads;
the JavaScript loops index only in bounds, so it is never consulted on the
executions the theorems are about. -/
def dFish : Fish := ⟨Vec3.zero, Vec3.zero, 0, 0, 0⟩

/-- The horizontal world radius used by the fish wraparound in
`FishSchool.update` (the literal `250` on lines 419-420). -/
def fishWorldRadius : ℝ := 250

/-- Horizontal wraparound of one coordinate (`FishSchool.update` lines
419-420): `if (Math.abs(c) > 250) c *= -0.9`. -/
noncomputable def wrapCoord (c : ℝ) : ℝ :=
  if fishWorldRadius < |c| then c * (-0.9) else c

/-- The horizontal bound used by the camera clamp in `Controls.update`
(the local `maxHorizontal = 240`). -/
def controlsMaxHorizontal : ℝ := 240

/-- The camera's horizontal clamp (`Controls.update` lines 221-223):
`c = Math.max(-maxHorizontal, Math.min(maxHorizontal, c))`. -/
noncomputable def controlsClampCoord (c : ℝ) : ℝ :=
  max (-controlsMaxHorizontal) (min controlsMaxHorizontal c)

/-- The horizontal bound used by the whale drift reflection in
`WhaleController.update` (the literal `150`). -/
def whaleBoundRadius : ℝ := 150

/-- The whale's horizontal containment (`WhaleController.update`): when
`|position.x| > 150` the drift velocity component is reflected with damping
`-0.5` and re-perturbed by `(Math.random() - 0.5) * 0.1`. -/
noncomputable def whaleBounceVelocity (posX vx draw : ℝ) : ℝ :=
  if whaleBoundRadius < |posX| then vx * (-0.5) + (draw - 0.5) * 0.1 else vx

/-- Neighbor sampling (`FishSchool.getNeighbors`): iterate `j` below
`min(count, fishes.length)`, take candidate index `(index + j*7) mod N`,
skip the creature itself, and keep the candidate when its distance to the
creature is below `schoolRadius * 0.3`. -/
noncomputable def getNeighbors (cfg : Config) (fishes : List Fish) (fish : Fish)
    (index count : ℕ) : List Fish :=
  (List.range (min count fishes.length)).filterMap fun j =>
    let checkIndex := (index + j * 7) % fishes.length
    if checkIndex = index then none
    else
      let other := fishes.getD checkIndex dFish
      if fish.position.distanceTo other.position < cfg.schoolRadius * 0.3 then
        some other
      else none

/-- Index-level restatement of `getNeighbors`: the candidate indices that
survive the skip and the radius test, in sampling order. `getNeighbors`
is exactly this list mapped through the population array. -/
noncomputable def neighborIndices (cfg : Config) (fishes : List Fish) (fish : Fish)
    (index count : ℕ) : List ℕ :=
  (List.range (min count fishes.length)).filterMap fun j =>
    let checkIndex := (index + j * 7) % fishes.length
    if checkIndex = index then none
    else
      if fish.position.distanceTo (fishes.getD checkIndex dFish).position <
          cfg.schoolRadius * 0.3 then
        some checkIndex
      else none

/-- The viewer-avoidance (flee) contribution of `applySwimmingBehavior`
(lines 499-505): inside the 25-unit flee radius, a vector away from the
camera scaled by `0.03 * (1 - dist/25)`; nothing outside it. -/
noncomputable def fleeForce (pos camera : Vec3) : Vec3 :=
  let distToCamera := pos.distanceTo camera
  if distToCamera < 25 then
    ((pos.sub camera).normalize).smul (0.03 * (1 - distToCamera / 25))
  else Vec3.zero

/-- The speed clamp at the end of `applySwimmingBehavior` (lines 507-517):
rescale to `maxSpeed` when faster, then rescale up to `minSpeed =
maxSpeed * 0.3` when slower. -/
noncomputable def clampSpeed (maxSpeed : ℝ) (v : Vec3) : Vec3 :=
  let v1 := if v.length > maxSpeed then (v.normalize).smul maxSpeed else v
  if v1.length < maxSpeed * 0.3 then (v1.normalize).smul (maxSpeed * 0.3) else v1

/-- One application of `FishSchool.applySwimmingBehavior`: the new velocity
of `fish` after cohesion, separation, alignment, noise, camera flee and the
speed clamp. `r1 r2 r3` are the tick's `Math.random()` draws for the noise
term. -/
noncomputable def applySwimmingBehavior (cfg : Config) (pattern : Pattern)
    (fishes : List Fish) (fish : Fish) (index : ℕ) (camera : Vec3)
    (r1 r2 r3 : ℝ) : Vec3 :=
  let neighbors := getNeighbors cfg fishes fish index 10
  let v0 := fish.velocity
  let v1 :=
    if neighbors.length > 0 ∧ pattern.cohesion > 0 then
      let center :=
        (neighbors.foldl (fun acc n => acc.add n.position) Vec3.zero).smul
          (1 / (neighbors.length : ℝ))
      v0.add (((center.sub fish.position).normalize).smul (pattern.cohesion * 0.01))
    else v0
  let v2 :=
    if neighbors.length > 0 ∧ pattern.separation > 0 then
      let separation :=
        neighbors.foldl (fun acc n =>
          let diff := fish.position.sub n.position
          let dist := diff.length
          if dist > 0 ∧ dist < cfg.baseSize * 5 then
            acc.add ((diff.normalize).smul (1 / dist))
          else acc) Vec3.zero
      v1.add ((separation.normalize).smul (pattern.separation * 0.02))
    else v1
  let v3 :=
    if neighbors.length > 0 ∧ pattern.alignment > 0 then
      let avgVelocity :=
        (neighbors.foldl (fun acc n => acc.add n.velocity) Vec3.zero).smul
          (1 / (neighbors.length : ℝ))
      v2.add ((avgVelocity.sub v2).smul (pattern.alignment * 0.05))
    else v2
  let v4 :=
    if pattern.noise > 0 then
      v3.add ⟨(r1 - 0.5) * pattern.noise * 0.01,
              (r2 - 0.5) * pattern.noise * 0.005 * pattern.verticalBias,
              (r3 - 0.5) * pattern.noise * 0.01⟩
    else v3
  let distToCamera := fish.position.distanceTo camera
  let v5 :=
    if distToCamera < 25 then
      v4.add (((fish.position.sub camera).normalize).smul
        (0.03 * (1 - distToCamera / 25)))
    else v4
  clampSpeed cfg.speed v5

/-- The per-creature body of the `FishSchool.update` loop, state part only:
apply the swimming behavior, integrate the position, apply the soft depth
containment to the velocity and the horizontal wraparound to the position.
Reads creature `index` out of the current population list. -/
noncomputable def updateFish (cfg : Config) (pattern : Pattern) (bracket : DepthBracket)
    (fishes : List Fish) (index : ℕ) (dt : ℝ) (camera : Vec3)
    (r1 r2 r3 : ℝ) : Fish :=
  let fish := fishes.getD index dFish
  let v := applySwimmingBehavior cfg pattern fishes fish index camera r1 r2 r3
  let pos := fish.position.add (v.smul dt)
  let v := if pos.y > -bracket.depthMin then { v with y := v.y - 0.01 } else v
  let v := if pos.y < -bracket.depthMax then { v with y := v.y + 0.01 } else v
  let pos := { pos with x := wrapCoord pos.x, z := wrapCoord pos.z }
  { fish with position := pos, velocity := v }

/-- The rotation data the transform emitter writes when the creature is
moving: the `lookAt` direction (`tempVec - position = velocity`), the
`rotateY` body-wiggle angle and the `rotateX` tail angle
(`tailWiggle * 0.3`). -/
structure LookRot where
  dir : Vec3
  bodyWiggle : ℝ
  tailX : ℝ

/-- One emitted per-instance transform (the data `setMatrixAt` consumes):
position, uniform scale, and the rotation state of the shared `dummy`
object. `rot = none` means the dummy still carries its initial identity
rotation (the creature was too slow to be re-oriented and no earlier
creature in this tick set a rotation). -/
structure Transform where
  position : Vec3
  scale : ℝ
  rot : Option LookRot

/-- The mutable per-school state: accumulated `this.time` and the
population records. -/
structure SchoolState where
  time : ℝ
  fishes : List Fish

/-- One iteration of the `FishSchool.update` loop: update creature `i` in
place, then emit its transform. The accumulator carries the population
list, the emitted transforms so far, and the rotation currently stored in
the shared `dummy` object (re-used across creatures within one tick). -/
noncomputable def updateStep (cfg : Config) (pattern : Pattern) (bracket : DepthBracket)
    (time dt : ℝ) (camera : Vec3) (rand : ℕ → ℝ × ℝ × ℝ)
    (acc : List Fish × List Transform × Option LookRot) (i : ℕ) :
    List Fish × List Transform × Option LookRot :=
  let fish := updateFish cfg pattern bracket acc.1 i dt camera
    (rand i).1 (rand i).2.1 (rand i).2.2
  let fishes := acc.1.set i fish
  let swimPhase := time * fish.swimFrequency + fish.phase
  let bodyWiggle := Real.sin swimPhase * 0.08
  let tailWiggle := Real.sin (swimPhase * 1.5) * 0.12
  let rot :=
    if fish.velocity.lengthSq > 0.0001 then
      some ⟨fish.velocity, bodyWiggle, tailWiggle * 0.3⟩
    else acc.2.2
  (fishes, acc.2.1 ++ [⟨fish.position, fish.scale, rot⟩], rot)

/-- One full tick of `FishSchool.update`: advance the clock, run the
per-creature loop over the whole population in index order, and return the
new school state together with the emitted transform list. -/
noncomputable def FishSchool.update (cfg : Config) (pattern : Pattern)
    (bracket : DepthBracket) (s : SchoolState) (dt : ℝ) (camera : Vec3)
    (rand : ℕ → ℝ × ℝ × ℝ) : SchoolState × List Transform :=
  let time := s.time + dt
  let acc := (List.range s.fishes.length).foldl
    (updateStep cfg pattern bracket time dt camera rand) (s.fishes, [], none)
  (⟨time, acc.1⟩, acc.2.1)

/-- The JavaScript runtime errors the constructor and the first tick can
raise when a configuration table lookup comes back `undefined`. -/
inductive JsError where
  | readSwimPatternOfUndefined
  | readCohesionOfUndefined
deriving DecidableEq

/-- The fields of a constructed `FishSchool` relevant to configuration
lookup: the archetype entry and the (possibly missing) behavior profile. -/
structure School where
  config : Config
  patternOpt : Option Pattern

/-- The `FishSchool` constructor's configuration lookups (lines 14-28):
`this.config = CREATURE_TYPES[creatureType]` never throws, but the very
next line reads `this.config.swimPattern`, which throws a `TypeError` when
the archetype entry is missing. A missing swim-pattern entry is stored
silently as `undefined` (`none`). -/
def FishSchool.construct (types : ℕ → Option Config) (patterns : ℕ → Option Pattern)
    (creatureType : ℕ) : Except JsError School :=
  match types creatureType with
  | none => Except.error JsError.readSwimPatternOfUndefined
  | some config => Except.ok ⟨config, patterns config.swimPattern⟩

/-- The first behavior-profile read of a tick (`applySwimmingBehavior` line
456 reads `pattern.cohesion`): with an `undefined` profile it throws, and
only then. -/
noncomputable def applySwimmingBehaviorE (school : School) (fishes : List Fish)
    (fish : Fish) (index : ℕ) (camera : Vec3) (r1 r2 r3 : ℝ) :
    Except JsError Vec3 :=
  match school.patternOpt with
  | none => Except.error JsError.readCohesionOfUndefined
  | some pattern =>
      Except.ok (applySwimmingBehavior school.config pattern fishes fish index
        camera r1 r2 r3)

/-- A small but fully regular archetype used by the concrete scenarios:
speed 1, spread radius 10, base size 1. -/
def cfgA : Config := ⟨1, 10, 1, 0⟩

/-- A behavior profile with every steering weight switched on. -/
def patA : Pattern := ⟨1, 1, 1, 1, 1⟩

/-- A behavior profile with all steering weights zero (solitary motion);
used to isolate the transform emitter from the steering forces. -/
def patZ : Pattern := ⟨0, 0, 0, 0, 1⟩

/-- A depth band so wide that the scenario creatures (which stay at depth
0) never trigger the soft depth-containment nudges. -/
def brA : DepthBracket := ⟨-100, 100⟩

/-- A viewer 100 units away from the origin: far outside the 25-unit flee
radius of every scenario creature. -/
def camA : Vec3 := ⟨0, 100, 0⟩

/-- A creature resting at the origin with zero velocity. -/
def fishStill : Fish := ⟨Vec3.zero, Vec3.zero, 1, 0, 6⟩

/-- Noise draws of exactly 0.5 for every creature: legal values of
`Math.random()` that make each noise component `(0.5 - 0.5) * ... = 0`. -/
def rand05 : ℕ → ℝ × ℝ × ℝ := fun _ => (0.5, 0.5, 0.5)

/-- A fast archetype (speed 100) for the wraparound overshoot scenario. -/
def cfgC4 : Config := ⟨100, 10, 1, 0⟩

/-- A creature one unit beyond the world radius, moving outward at full
speed. -/
def fishC4 : Fish := ⟨⟨251, 0, 0⟩, ⟨100, 0, 0⟩, 1, 0, 6⟩

/-- A camera 100 units above `fishC4`. -/
def camC4 : Vec3 := ⟨251, 100, 0⟩

/-- A moving creature whose serialized tuple (position, velocity, scale,
phase) is fixed while the swim-frequency jitter varies. -/
def fish8 (freq : ℝ) : Fish := ⟨Vec3.zero, ⟨0, 0, 1⟩, 1, 0, freq⟩

/-- A tick length of pi/4 seconds, chosen so the two swim frequencies 6 and
8 land on swim phases 3*pi/2 and 2*pi. -/
noncomputable def dt8 : ℝ := Real.pi / 4

/-- An archetype entry whose behavior-profile key (5) is absent from the
profile table below. -/
def cfg7 : Config := ⟨1, 10, 1, 5⟩

/-- A creature-type table holding exactly one archetype, under key 2. -/
def types7 : ℕ → Option Config := fun t => if t = 2 then some cfg7 else none

/-- A swim-pattern table with no entries at all. -/
def pats7 : ℕ → Option Pattern := fun _ => none

lemma Vec3.length_nonneg (v : Vec3) : 0 ≤ v.length := Real.sqrt_nonneg _

lemma Vec3.length_zero_vec : Vec3.zero.length = 0 := by
  simp [Vec3.length, Vec3.zero]

lemma Vec3.add_zero_vec (v : Vec3) : v.add Vec3.zero = v := by
  ext <;> simp [Vec3.add, Vec3.zero]

lemma Vec3.smul_zero_vec (c : ℝ) : Vec3.zero.smul c = Vec3.zero := by
  ext <;> simp [Vec3.smul, Vec3.zero]

lemma Vec3.sub_self_vec (v : Vec3) : v.sub v = Vec3.zero := by
  ext <;> simp [Vec3.sub, Vec3.zero]

lemma Vec3.normalize_zero_vec : Vec3.zero.normalize = Vec3.zero := by
  rw [Vec3.normalize, Vec3.smul_zero_vec]

lemma Vec3.length_smul (v : Vec3) (c : ℝ) :
    (v.smul c).length = |c| * v.length := by
  rw [Vec3.length, Vec3.smul, Vec3.length]
  have h : (v.x * c) ^ 2 + (v.y * c) ^ 2 + (v.z * c) ^ 2 =
      c ^ 2 * (v.x ^ 2 + v.y ^ 2 + v.z ^ 2) := by ring
  rw [h, Real.sqrt_mul (sq_nonneg c), Real.sqrt_sq_eq_abs]

lemma Vec3.length_pos_of_ne_zero {v : Vec3} (h : v.length ≠ 0) :
    0 < v.length := lt_of_le_of_ne (Vec3.length_nonneg v) (Ne.symm h)

lemma Vec3.normalize_length {v : Vec3} (h : v.length ≠ 0) :
    v.normalize.length = 1 := by
  have hp : 0 < v.length := Vec3.length_pos_of_ne_zero h
  rw [Vec3.normalize, if_neg h, Vec3.length_smul,
    abs_of_pos (by positivity : (0:ℝ) < 1 / v.length)]
  field_simp

lemma Vec3.distanceTo_self (v : Vec3) : v.distanceTo v = 0 := by
  rw [Vec3.distanceTo, Vec3.sub_self_vec, Vec3.length_zero_vec]

lemma Vec3.length_axisX (c : ℝ) : (⟨c, 0, 0⟩ : Vec3).length = |c| := by
  rw [Vec3.length]
  rw [show (c ^ 2 + (0:ℝ) ^ 2 + 0 ^ 2) = c ^ 2 by ring, Real.sqrt_sq_eq_abs]

lemma Vec3.length_axisY (c : ℝ) : (⟨0, c, 0⟩ : Vec3).length = |c| := by
  rw [Vec3.length]
  rw [show ((0:ℝ) ^ 2 + c ^ 2 + 0 ^ 2) = c ^ 2 by ring, Real.sqrt_sq_eq_abs]

lemma Vec3.length_axisZ (c : ℝ) : (⟨0, 0, c⟩ : Vec3).length = |c| := by
  rw [Vec3.length]
  rw [show ((0:ℝ) ^ 2 + 0 ^ 2 + c ^ 2) = c ^ 2 by ring, Real.sqrt_sq_eq_abs]

lemma getD_replicate_of_lt {α : Type} {n j : ℕ} (a d : α) (h : j < n) :
    (List.replicate n a).getD j d = a := by
  rw [List.getD_eq_getElem?_getD, List.getElem?_replicate, if_pos h]
  rfl

lemma set_replicate_self {α : Type} (n i : ℕ) (a : α) :
    (List.replicate n a).set i a = List.replicate n a := by
  induction n generalizing i with
  | zero => simp
  | succ n ih =>
      cases i with
      | zero => simp [List.replicate_succ]
      | succ i => simp [List.replicate_succ, ih]

lemma clampSpeed_zero {s : ℝ} (hs : 0 ≤ s) : clampSpeed s Vec3.zero = Vec3.zero := by
  simp only [clampSpeed, Vec3.length_zero_vec]
  rw [if_neg (by simpa using hs : ¬((0:ℝ) > s))]
  rw [Vec3.length_zero_vec]
  by_cases h2 : (0:ℝ) < s * 0.3
  · rw [if_pos h2, Vec3.normalize_zero_vec, Vec3.smul_zero_vec]
  · rw [if_neg h2]

lemma dist_still_camA : fishStill.position.distanceTo camA = 100 := by
  have h : fishStill.position.sub camA = ⟨0, -100, 0⟩ := by
    ext <;> simp [fishStill, camA, Vec3.sub, Vec3.zero]
  rw [Vec3.distanceTo, h, Vec3.length_axisY]
  norm_num

lemma neighbors_single10 (cfg : Config) (f : Fish) :
    getNeighbors cfg [f] f 0 10 = [] := by
  simp [getNeighbors]

lemma applySwim_single_still :
    applySwimmingBehavior cfgA patA [fishStill] fishStill 0 camA 0.5 0.5 0.5 =
      Vec3.zero := by
  simp only [applySwimmingBehavior, neighbors_single10]
  rw [dist_still_camA]
  have hzv : fishStill.velocity = Vec3.zero := rfl
  have hnoise : fishStill.velocity.add
      ⟨(0.5 - 0.5) * patA.noise * 0.01,
       (0.5 - 0.5) * patA.noise * 0.005 * patA.verticalBias,
       (0.5 - 0.5) * patA.noise * 0.01⟩ = Vec3.zero := by
    ext <;> simp [fishStill, patA, Vec3.add, Vec3.zero]
  simp only [List.length_nil, gt_iff_lt, lt_self_iff_false, false_and, if_false,
    hnoise]
  rw [if_pos (by norm_num [patA] : patA.noise > 0)]
  rw [if_neg (by norm_num : ¬((100:ℝ) < 25))]
  exact clampSpeed_zero (by norm_num [cfgA])

lemma neighbors_replicate (i : ℕ) (hi : i < 100) :
    getNeighbors cfgA (List.replicate 100 fishStill) fishStill i 10 =
      List.replicate 9 fishStill := by
  have hd : ∀ c : ℕ, c < 100 →
      (List.replicate 100 fishStill).getD c dFish = fishStill := fun c hc =>
    getD_replicate_of_lt _ _ hc
  have hdist : ∀ c : ℕ, c < 100 →
      fishStill.position.distanceTo
        ((List.replicate 100 fishStill).getD c dFish).position <
        cfgA.schoolRadius * 0.3 := by
    intro c hc
    rw [hd c hc, Vec3.distanceTo_self]
    norm_num [cfgA]
  simp only [getNeighbors, List.length_replicate]
  rw [show min 10 100 = 10 from by norm_num]
  rw [show List.range 10 = [0, 1, 2, 3, 4, 5, 6, 7, 8, 9] from rfl]
  simp only [List.filterMap_cons, List.filterMap_nil]
  rw [if_pos (by omega : (i + 0 * 7) % 100 = i)]
  rw [if_neg (by omega : ¬((i + 1 * 7) % 100 = i))]
  rw [if_pos (hdist _ (Nat.mod_lt _ (by norm_num)))]
  rw [if_neg (by omega : ¬((i + 2 * 7) % 100 = i))]
  rw [if_pos (hdist _ (Nat.mod_lt _ (by norm_num)))]
  rw [if_neg (by omega : ¬((i + 3 * 7) % 100 = i))]
  rw [if_pos (hdist _ (Nat.mod_lt _ (by norm_num)))]
  rw [if_neg (by omega : ¬((i + 4 * 7) % 100 = i))]
  rw [if_pos (hdist _ (Nat.mod_lt _ (by norm_num)))]
  rw [if_neg (by omega : ¬((i + 5 * 7) % 100 = i))]
  rw [if_pos (hdist _ (Nat.mod_lt _ (by norm_num)))]
  rw [if_neg (by omega : ¬((i + 6 * 7) % 100 = i))]
  rw [if_pos (hdist _ (Nat.mod_lt _ (by norm_num)))]
  rw [if_neg (by omega : ¬((i + 7 * 7) % 100 = i))]
  rw [if_pos (hdist _ (Nat.mod_lt _ (by norm_num)))]
  rw [if_neg (by omega : ¬((i + 8 * 7) % 100 = i))]
  rw [if_pos (hdist _ (Nat.mod_lt _ (by norm_num)))]
  rw [if_neg (by omega : ¬((i + 9 * 7) % 100 = i))]
  rw [if_pos (hdist _ (Nat.mod_lt _ (by norm_num)))]
  simp only [hd _ (Nat.mod_lt _ (by norm_num))]
  rfl

lemma applySwim_replicate (i : ℕ) (hi : i < 100) :
    applySwimmingBehavior cfgA patA (List.replicate 100 fishStill) fishStill i
      camA 0.5 0.5 0.5 = Vec3.zero := by
  simp only [applySwimmingBehavior, neighbors_replicate i hi]
  rw [show List.replicate 9 fishStill =
    [fishStill, fishStill, fishStill, fishStill, fishStill, fishStill,
     fishStill, fishStill, fishStill] from rfl]
  rw [dist_still_camA]
  norm_num [List.foldl_cons, List.foldl_nil, fishStill, patA, cfgA,
    Vec3.add, Vec3.sub, Vec3.smul, Vec3.zero, Vec3.normalize, Vec3.length,
    clampSpeed, Real.sqrt_zero]

lemma updateFish_replicate (i : ℕ) (hi : i < 100) :
    updateFish cfgA patA brA (List.replicate 100 fishStill) i 1 camA
      0.5 0.5 0.5 = fishStill := by
  simp only [updateFish, getD_replicate_of_lt _ _ hi, applySwim_replicate i hi]
  norm_num [fishStill, brA, Vec3.add, Vec3.smul, Vec3.zero, wrapCoord,
    fishWorldRadius]

lemma foldl_updateStep_replicate (t : ℝ) (l : List ℕ) (hl : ∀ j ∈ l, j < 100) :
    ∀ acc : List Fish × List Transform × Option LookRot,
      acc.1 = List.replicate 100 fishStill →
      ((l.foldl (updateStep cfgA patA brA t 1 camA rand05) acc).1) =
        List.replicate 100 fishStill := by
  induction l with
  | nil => intro acc h; simpa using h
  | cons j l ih =>
      intro acc h
      rw [List.foldl_cons]
      refine ih (fun m hm => hl m (List.mem_cons_of_mem _ hm)) _ ?_
      simp only [updateStep, rand05, h]
      rw [updateFish_replicate j (hl j (List.mem_cons_self _ _))]
      exact set_replicate_self _ _ _

/-- C1, counterexample. The claim asserts `minSpeed <= |velocity|` after the
speed-clamp step for every instance. A creature with zero velocity whose
accumulated forces cancel (no neighbors in radius is impossible here, but a
singleton school has no neighbors at all, the noise draws are centered, and
the viewer is far away) leaves `applySwimmingBehavior` with velocity still
zero: `Vector3.normalize` guards the zero vector (`length() || 1`), so the
minimum-speed rescale multiplies the zero vector and the floor fails. -/
theorem claim_C1_counterexample :
    (applySwimmingBehavior cfgA patA [fishStill] fishStill 0 camA
      0.5 0.5 0.5).length < cfgA.speed * 0.3 := by
  rw [applySwim_single_still, Vec3.length_zero_vec]
  norm_num [cfgA]

/-- C1, amended. The speed clamp at the end of `applySwimmingBehavior`
guarantees `maxSpeed * 0.3 <= |velocity| <= maxSpeed` for every creature
whose pre-clamp velocity is nonzero (and positive `maxSpeed`); the zero
velocity is the single stalled exception (see the counterexample), and the
end-of-tick magnitude can further drift by the 0.01 depth nudge applied
after the clamp. -/
theorem claim_C1_amended (s : ℝ) (v : Vec3) (hv : v.length ≠ 0) (hs : 0 < s) :
    s * 0.3 ≤ (clampSpeed s v).length ∧ (clampSpeed s v).length ≤ s := by
  simp only [clampSpeed]
  by_cases h1 : v.length > s
  · have hn1 : ((v.normalize).smul s).length = s := by
      rw [Vec3.length_smul, Vec3.normalize_length hv, mul_one, abs_of_pos hs]
    rw [if_pos h1, hn1]
    rw [if_neg (by linarith : ¬(s < s * 0.3))]
    rw [hn1]
    exact ⟨by linarith, le_refl s⟩
  · rw [if_neg h1]
    push_neg at h1
    by_cases h2 : v.length < s * 0.3
    · rw [if_pos h2]
      have hn2 : ((v.normalize).smul (s * 0.3)).length = s * 0.3 := by
        rw [Vec3.length_smul, Vec3.normalize_length hv, mul_one,
          abs_of_pos (by linarith : (0:ℝ) < s * 0.3)]
      rw [hn2]
      exact ⟨le_refl _, by linarith⟩
    · rw [if_neg h2]
      push_neg at h2
      exact ⟨h2, h1⟩

/-- C1, witness: the amended clamp bound evaluated on the concrete velocity
`(0,0,2)` with `maxSpeed = 1`: the result speed lands in `[0.3, 1]`. -/
theorem claim_C1_witness :
    (⟨0, 0, 2⟩ : Vec3).length ≠ 0 ∧ (0:ℝ) < 1 ∧
      (1 * 0.3 ≤ (clampSpeed 1 ⟨0, 0, 2⟩).length ∧
        (clampSpeed 1 ⟨0, 0, 2⟩).length ≤ 1) :=
  ⟨by rw [Vec3.length_axisZ]; norm_num, by norm_num,
    claim_C1_amended 1 ⟨0, 0, 2⟩ (by rw [Vec3.length_axisZ]; norm_num)
      (by norm_num)⟩

/-- C2, counterexample. The claim asserts that 100 coincident creatures
with zero velocity all end one `FishSchool.update` with nonzero velocity
because "distance 0 triggers maximal repulsion". In the code the separation
accumulation requires `dist > 0`, so coincident neighbors contribute no
repulsion at all; with centered noise draws (a legal value of
`Math.random()` is 0.5) instance 0 still has velocity magnitude 0 after the
tick. -/
theorem claim_C2_counterexample :
    ((FishSchool.update cfgA patA brA ⟨0, List.replicate 100 fishStill⟩ 1 camA
      rand05).1.fishes.getD 0 dFish).velocity.length = 0 := by
  simp only [FishSchool.update, List.length_replicate]
  rw [foldl_updateStep_replicate (0 + 1) (List.range 100)
    (fun j hj => List.mem_range.mp hj) (List.replicate 100 fishStill, [], none)
    rfl]
  rw [getD_replicate_of_lt _ _ (by norm_num : (0:ℕ) < 100)]
  exact Vec3.length_zero_vec

/-- C2, amended. For 100 instances seeded at the same point with zero
velocity, one `FishSchool.update` with centered noise draws leaves every
instance with velocity magnitude exactly 0: coincident neighbors are
excluded from the separation force by the `dist > 0` guard, so only the
noise term can disperse such a population. -/
theorem claim_C2_amended (i : ℕ) (hi : i < 100) :
    ((FishSchool.update cfgA patA brA ⟨0, List.replicate 100 fishStill⟩ 1 camA
      rand05).1.fishes.getD i dFish).velocity.length = 0 := by
  simp only [FishSchool.update, List.length_replicate]
  rw [foldl_updateStep_replicate (0 + 1) (List.range 100)
    (fun j hj => List.mem_range.mp hj) (List.replicate 100 fishStill, [], none)
    rfl]
  rw [getD_replicate_of_lt _ _ hi]
  exact Vec3.length_zero_vec

/-- C2, witness: the amended statement evaluated at instance 37. -/
theorem claim_C2_witness :
    (37 : ℕ) < 100 ∧
      ((FishSchool.update cfgA patA brA ⟨0, List.replicate 100 fishStill⟩ 1
        camA rand05).1.fishes.getD 37 dFish).velocity.length = 0 :=
  ⟨by norm_num, claim_C2_amended 37 (by norm_num)⟩

/-- C3. Characterization of the neighbor sampler: a fish is returned by
`getNeighbors` exactly when it sits at a candidate index `(i + j*7) mod N`
for some `j < min(k, N)`, that index differs from `i`, and its Euclidean
distance to the creature is strictly below `0.3 * schoolRadius`; and the
sampler is deterministic (two calls on unchanged state are equal). -/
theorem claim_C3 (cfg : Config) (fishes : List Fish) (fish : Fish) (i k : ℕ) :
    (∀ f, f ∈ getNeighbors cfg fishes fish i k ↔
      ∃ j, j < min k fishes.length ∧
        (i + j * 7) % fishes.length ≠ i ∧
        f = fishes.getD ((i + j * 7) % fishes.length) dFish ∧
        fish.position.distanceTo f.position < cfg.schoolRadius * 0.3) ∧
    getNeighbors cfg fishes fish i k = getNeighbors cfg fishes fish i k := by
  refine ⟨fun f => ?_, rfl⟩
  simp only [getNeighbors, List.mem_filterMap, List.mem_range]
  constructor
  · rintro ⟨j, hj, he⟩
    by_cases hc : (i + j * 7) % fishes.length = i
    · rw [if_pos hc] at he
      exact absurd he (by simp)
    · rw [if_neg hc] at he
      by_cases hd : fish.position.distanceTo
          ((fishes.getD ((i + j * 7) % fishes.length) dFish)).position <
          cfg.schoolRadius * 0.3
      · rw [if_pos hd] at he
        have hf := Option.some.inj he
        exact ⟨j, hj, hc, hf.symm, hf ▸ hd⟩
      · rw [if_neg hd] at he
        exact absurd he (by simp)
  · rintro ⟨j, hj, hc, hf, hd⟩
    subst hf
    exact ⟨j, hj, by rw [if_neg hc, if_pos hd]⟩

/-- C9. The sampler never returns the creature itself (the `j = 0`
candidate always collapses to `i` and is skipped, as is any other candidate
congruent to `i`), so the result has length at most `min(k, N) - 1`; for a
population of one the result is always empty. The second conjunct ties the
returned records to the surviving candidate indices. -/
theorem claim_C9 (cfg : Config) (fishes : List Fish) (fish : Fish) (i k : ℕ)
    (hi : i < fishes.length) :
    i ∉ neighborIndices cfg fishes fish i k ∧
    getNeighbors cfg fishes fish i k =
      (neighborIndices cfg fishes fish i k).map (fun j => fishes.getD j dFish) ∧
    (getNeighbors cfg fishes fish i k).length ≤ min k fishes.length - 1 ∧
    (fishes.length = 1 → getNeighbors cfg fishes fish i k = []) := by
  refine ⟨?_, ?_, ?_, ?_⟩
  · intro hmem
    simp only [neighborIndices, List.mem_filterMap, List.mem_range] at hmem
    obtain ⟨j, _, he⟩ := hmem
    by_cases hc : (i + j * 7) % fishes.length = i
    · rw [if_pos hc] at he
      exact absurd he (by simp)
    · rw [if_neg hc] at he
      by_cases hd : fish.position.distanceTo
          ((fishes.getD ((i + j * 7) % fishes.length) dFish)).position <
          cfg.schoolRadius * 0.3
      · rw [if_pos hd] at he
        exact hc (Option.some.inj he)
      · rw [if_neg hd] at he
        exact absurd he (by simp)
  · rw [getNeighbors, neighborIndices, List.map_filterMap]
    refine List.filterMap_congr (fun j _ => ?_)
    by_cases hc : (i + j * 7) % fishes.length = i
    · rw [if_pos hc, if_pos hc]
      rfl
    · rw [if_neg hc, if_neg hc]
      by_cases hd : fish.position.distanceTo
          ((fishes.getD ((i + j * 7) % fishes.length) dFish)).position <
          cfg.schoolRadius * 0.3
      · rw [if_pos hd, if_pos hd]
        rfl
      · rw [if_neg hd, if_neg hd]
        rfl
  · rcases Nat.eq_zero_or_pos (min k fishes.length) with hm | hm
    · simp [getNeighbors, hm]
    · obtain ⟨t, ht⟩ := Nat.exists_eq_succ_of_ne_zero (Nat.pos_iff_ne_zero.mp hm)
      rw [getNeighbors, ht, List.range_succ_eq_map, List.filterMap_cons]
      have hc0 : (i + 0 * 7) % fishes.length = i := by
        simp [Nat.mod_eq_of_lt hi]
      rw [if_pos hc0]
      calc (List.filterMap _ ((List.range t).map Nat.succ)).length
          ≤ ((List.range t).map Nat.succ).length := List.length_filterMap_le _ _
        _ = t := by simp
        _ ≤ t.succ - 1 := by omega
  · intro h1
    have hi0 : i = 0 := by omega
    subst hi0
    simp [getNeighbors, h1, Nat.mod_one]

/-- C9, witness: for the singleton school the sampler returns the empty
list, contains no self-index, and meets the length bound. -/
theorem claim_C9_witness :
    (0 : ℕ) < ([fishStill] : List Fish).length ∧
      (0 ∉ neighborIndices cfgA [fishStill] fishStill 0 10 ∧
       getNeighbors cfgA [fishStill] fishStill 0 10 =
         (neighborIndices cfgA [fishStill] fishStill 0 10).map
           (fun j => [fishStill].getD j dFish) ∧
       (getNeighbors cfgA [fishStill] fishStill 0 10).length ≤
         min 10 ([fishStill] : List Fish).length - 1 ∧
       (([fishStill] : List Fish).length = 1 →
         getNeighbors cfgA [fishStill] fishStill 0 10 = [])) :=
  ⟨by norm_num, claim_C9 cfgA [fishStill] fishStill 0 10 (by norm_num)⟩

lemma dist_C4_camC4 : fishC4.position.distanceTo camC4 = 100 := by
  have h : fishC4.position.sub camC4 = ⟨0, -100, 0⟩ := by
    ext <;> simp [fishC4, camC4, Vec3.sub]
  rw [Vec3.distanceTo, h, Vec3.length_axisY]
  norm_num

lemma length_vel_C4 : (⟨100, 0, 0⟩ : Vec3).length = 100 := by
  rw [Vec3.length_axisX]
  norm_num

lemma applySwim_C4 :
    applySwimmingBehavior cfgC4 patA [fishC4] fishC4 0 camC4 0.5 0.5 0.5 =
      ⟨100, 0, 0⟩ := by
  simp only [applySwimmingBehavior, neighbors_single10]
  rw [dist_C4_camC4]
  have hnoise : fishC4.velocity.add
      ⟨(0.5 - 0.5) * patA.noise * 0.01,
       (0.5 - 0.5) * patA.noise * 0.005 * patA.verticalBias,
       (0.5 - 0.5) * patA.noise * 0.01⟩ = ⟨100, 0, 0⟩ := by
    ext <;> simp [fishC4, patA, Vec3.add]
  simp only [List.length_nil, gt_iff_lt, lt_self_iff_false, false_and, if_false,
    hnoise]
  rw [if_pos (by norm_num [patA] : patA.noise > 0)]
  rw [if_neg (by norm_num : ¬((100:ℝ) < 25))]
  simp only [clampSpeed, length_vel_C4]
  rw [if_neg (by norm_num [cfgC4] : ¬((100:ℝ) > cfgC4.speed))]
  rw [length_vel_C4, if_neg (by norm_num [cfgC4] : ¬((100:ℝ) < cfgC4.speed * 0.3))]

lemma updateFish_C4 :
    updateFish cfgC4 patA brA [fishC4] 0 1 camC4 0.5 0.5 0.5 =
      ⟨⟨-315.9, 0, 0⟩, ⟨100, 0, 0⟩, 1, 0, 6⟩ := by
  simp only [updateFish]
  have hgetD : ([fishC4] : List Fish).getD 0 dFish = fishC4 := rfl
  rw [hgetD, applySwim_C4]
  have hpos : fishC4.position.add ((⟨100, 0, 0⟩ : Vec3).smul 1) = ⟨351, 0, 0⟩ := by
    ext <;> norm_num [fishC4, Vec3.add, Vec3.smul]
  rw [hpos]
  norm_num [fishC4, brA, wrapCoord, fishWorldRadius]

lemma update_result_C4 :
    (FishSchool.update cfgC4 patA brA ⟨0, [fishC4]⟩ 1 camC4 rand05).1.fishes =
      [⟨⟨-315.9, 0, 0⟩, ⟨100, 0, 0⟩, 1, 0, 6⟩] := by
  simp only [FishSchool.update]
  rw [show List.range (⟨0, [fishC4]⟩ : SchoolState).fishes.length = [0] from rfl]
  rw [List.foldl_cons, List.foldl_nil]
  simp only [updateStep, rand05]
  rw [updateFish_C4]
  rfl

/-- C4, counterexample. The claim says a creature starting the tick at
`x = worldRadius + 1` always ends the tick with `|x| < worldRadius`. The
wraparound multiplies the post-integration coordinate, so a fast creature
(speed 100, dt 1) integrates from `x = 251` to `x = 351` and is reflected
to `x = -315.9`, which is still outside the 250-unit world radius. -/
theorem claim_C4_counterexample :
    ((FishSchool.update cfgC4 patA brA ⟨0, [fishC4]⟩ 1 camC4
        rand05).1.fishes.getD 0 dFish).position.x = -315.9 ∧
      ¬(|((FishSchool.update cfgC4 patA brA ⟨0, [fishC4]⟩ 1 camC4
        rand05).1.fishes.getD 0 dFish).position.x| < fishWorldRadius) := by
  rw [update_result_C4]
  have hx : (([⟨⟨-315.9, 0, 0⟩, ⟨100, 0, 0⟩, 1, 0, 6⟩] : List Fish).getD 0
      dFish).position.x = -315.9 := rfl
  rw [hx, abs_of_neg (by norm_num : (-315.9 : ℝ) < 0), fishWorldRadius]
  norm_num

/-- C4, amended. The wraparound multiplies the post-integration coordinate
by `-0.9` whenever its absolute value exceeds 250, and the reflected
coordinate lands strictly inside the world radius provided the creature
overshot by less than a factor `1/0.9` (i.e. `|x| < 2500/9 ~ 277.8`, which
holds for a creature at `x = 251` whose per-tick displacement is below
26.7 units). -/
theorem claim_C4_amended (x : ℝ) (h1 : 250 < |x|) (h2 : |x| < 2500 / 9) :
    wrapCoord x = x * (-0.9) ∧ |wrapCoord x| < 250 := by
  have he : wrapCoord x = x * (-0.9) := by
    rw [wrapCoord, if_pos (show fishWorldRadius < |x| by
      rw [fishWorldRadius]; exact h1)]
  refine ⟨he, ?_⟩
  rw [he, abs_mul]
  rw [show |(-0.9 : ℝ)| = 0.9 by norm_num]
  nlinarith [abs_nonneg x]

/-- C4, witness: the amended reflection bound evaluated at `x = 251`. -/
theorem claim_C4_witness :
    (250 : ℝ) < |(251 : ℝ)| ∧ |(251 : ℝ)| < 2500 / 9 ∧
      (wrapCoord 251 = 251 * (-0.9) ∧ |wrapCoord 251| < 250) :=
  ⟨by norm_num, by norm_num, claim_C4_amended 251 (by norm_num) (by norm_num)⟩

lemma fleeForce_length {p cam : Vec3} (h0 : 0 < p.distanceTo cam)
    (h25 : p.distanceTo cam < 25) :
    (fleeForce p cam).length = 0.03 * (1 - p.distanceTo cam / 25) := by
  have hne : (p.sub cam).length ≠ 0 := by
    have : p.distanceTo cam = (p.sub cam).length := rfl
    rw [this] at h0
    exact ne_of_gt h0
  simp only [fleeForce]
  rw [if_pos h25, Vec3.length_smul, Vec3.normalize_length hne, mul_one]
  have hpos : (0:ℝ) < 0.03 * (1 - p.distanceTo cam / 25) := by
    have : p.distanceTo cam / 25 < 1 := by linarith [h25]
    nlinarith
  rw [abs_of_pos hpos]

lemma fleeForce_far {p cam : Vec3} (h : 25 ≤ p.distanceTo cam) :
    fleeForce p cam = Vec3.zero := by
  simp only [fleeForce]
  rw [if_neg (not_lt.mpr h)]

/-- C5, counterexample. The claim says the flee-force magnitude is
`0.03 * (1 - d/25)` for every `d < 25` and strictly decreasing on that
range. At `d = 0` (creature exactly at the viewer) the repulsion direction
is the zero vector, which three.js normalizes to zero, so the force
magnitude is 0 rather than 0.03 and the magnitude strictly increases
between `d = 0` and `d = 20`. -/
theorem claim_C5_counterexample :
    camA.distanceTo camA = 0 ∧
      (⟨0, 100, 20⟩ : Vec3).distanceTo camA = 20 ∧
      (fleeForce camA camA).length < (fleeForce ⟨0, 100, 20⟩ camA).length := by
  have hsub : (⟨0, 100, 20⟩ : Vec3).sub camA = ⟨0, 0, 20⟩ := by
    ext <;> simp [camA, Vec3.sub]
  have hd : (⟨0, 100, 20⟩ : Vec3).distanceTo camA = 20 := by
    rw [Vec3.distanceTo, hsub, Vec3.length_axisZ]; norm_num
  have h1 : fleeForce camA camA = Vec3.zero := by
    simp only [fleeForce]
    rw [Vec3.distanceTo_self]
    rw [if_pos (by norm_num : (0:ℝ) < 25), Vec3.sub_self_vec,
      Vec3.normalize_zero_vec, Vec3.smul_zero_vec]
  have h2 : (fleeForce ⟨0, 100, 20⟩ camA).length = 0.006 := by
    have hlen : (fleeForce ⟨0, 100, 20⟩ camA).length =
        0.03 * (1 - (⟨0, 100, 20⟩ : Vec3).distanceTo camA / 25) :=
      fleeForce_length (by rw [hd]; norm_num) (by rw [hd]; norm_num)
    rw [hlen, hd]
    norm_num
  exact ⟨Vec3.distanceTo_self camA, hd, by
    rw [h1, Vec3.length_zero_vec, h2]; norm_num⟩

/-- C5, amended. For two creatures at positive distances `d1 < d2` from the
viewer: inside the flee radius the force magnitude is exactly
`0.03 * (1 - d/25)` and is therefore strictly smaller at the larger
distance, and at or beyond 25 units the force is exactly zero. The `d = 0`
degenerate point is excluded (see the counterexample). -/
theorem claim_C5_amended (cam p1 p2 : Vec3) (h1 : 0 < p1.distanceTo cam)
    (h2 : p1.distanceTo cam < p2.distanceTo cam) :
    (p1.distanceTo cam < 25 →
      (fleeForce p1 cam).length = 0.03 * (1 - p1.distanceTo cam / 25)) ∧
    (p2.distanceTo cam < 25 →
      (fleeForce p2 cam).length < (fleeForce p1 cam).length) ∧
    (25 ≤ p2.distanceTo cam → fleeForce p2 cam = Vec3.zero) := by
  refine ⟨fun h => fleeForce_length h1 h, fun h => ?_, fun h => fleeForce_far h⟩
  rw [fleeForce_length h1 (lt_trans h2 h), fleeForce_length (lt_trans h1 h2) h]
  have := h2
  linarith

/-- C5, witness: the amended flee falloff evaluated for creatures 10 and 26
units away from a viewer at the origin. -/
theorem claim_C5_witness :
    (0 : ℝ) < (⟨0, 0, 10⟩ : Vec3).distanceTo ⟨0, 0, 0⟩ ∧
    (⟨0, 0, 10⟩ : Vec3).distanceTo ⟨0, 0, 0⟩ <
      (⟨0, 0, 26⟩ : Vec3).distanceTo ⟨0, 0, 0⟩ ∧
    (((⟨0, 0, 10⟩ : Vec3).distanceTo ⟨0, 0, 0⟩ < 25 →
      (fleeForce ⟨0, 0, 10⟩ ⟨0, 0, 0⟩).length =
        0.03 * (1 - (⟨0, 0, 10⟩ : Vec3).distanceTo ⟨0, 0, 0⟩ / 25)) ∧
    ((⟨0, 0, 26⟩ : Vec3).distanceTo ⟨0, 0, 0⟩ < 25 →
      (fleeForce ⟨0, 0, 26⟩ ⟨0, 0, 0⟩).length <
        (fleeForce ⟨0, 0, 10⟩ ⟨0, 0, 0⟩).length) ∧
    (25 ≤ (⟨0, 0, 26⟩ : Vec3).distanceTo ⟨0, 0, 0⟩ →
      fleeForce ⟨0, 0, 26⟩ ⟨0, 0, 0⟩ = Vec3.zero)) := by
  have hd10 : (⟨0, 0, 10⟩ : Vec3).distanceTo ⟨0, 0, 0⟩ = 10 := by
    have hsub : (⟨0, 0, 10⟩ : Vec3).sub ⟨0, 0, 0⟩ = ⟨0, 0, 10⟩ := by
      ext <;> simp [Vec3.sub]
    rw [Vec3.distanceTo, hsub, Vec3.length_axisZ]; norm_num
  have hd26 : (⟨0, 0, 26⟩ : Vec3).distanceTo ⟨0, 0, 0⟩ = 26 := by
    have hsub : (⟨0, 0, 26⟩ : Vec3).sub ⟨0, 0, 0⟩ = ⟨0, 0, 26⟩ := by
      ext <;> simp [Vec3.sub]
    rw [Vec3.distanceTo, hsub, Vec3.length_axisZ]; norm_num
  exact ⟨by rw [hd10]; norm_num, by rw [hd10, hd26]; norm_num,
    claim_C5_amended ⟨0, 0, 0⟩ ⟨0, 0, 10⟩ ⟨0, 0, 26⟩
      (by rw [hd10]; norm_num) (by rw [hd10, hd26]; norm_num)⟩

/-- C6, counterexample. The claim says the camera clamp, the fish
wraparound and the whale reflection share a single horizontal bound. They
do not: at `x = 245` the camera is clamped back to 240 while a fish is not
wrapped at all, and the three literals 240, 250 and 150 are pairwise
different. -/
theorem claim_C6_counterexample :
    controlsClampCoord 245 = controlsMaxHorizontal ∧ wrapCoord 245 = 245 ∧
      ¬(controlsMaxHorizontal = fishWorldRadius ∧
        fishWorldRadius = whaleBoundRadius) := by
  refine ⟨?_, ?_, ?_⟩
  · rw [controlsClampCoord, controlsMaxHorizontal]
    norm_num
  · rw [wrapCoord, if_neg (by norm_num [fishWorldRadius])]
  · norm_num [controlsMaxHorizontal, fishWorldRadius, whaleBoundRadius]

/-- C6, amended. The three horizontal containment bounds are distinct
constants: the camera clamp uses 240, the fish wraparound uses 250, and the
whale drift reflection uses 150. -/
theorem claim_C6_amended :
    controlsMaxHorizontal = 240 ∧ fishWorldRadius = 250 ∧
      whaleBoundRadius = 150 ∧ controlsMaxHorizontal ≠ fishWorldRadius ∧
      fishWorldRadius ≠ whaleBoundRadius ∧
      controlsMaxHorizontal ≠ whaleBoundRadius := by
  norm_num [controlsMaxHorizontal, fishWorldRadius, whaleBoundRadius]

/-- C7, counterexample. The claim says any missing archetype or
behavior-profile entry fails at construction and never first fails inside a
later tick. In the code only the archetype lookup fails at construction
(the constructor immediately reads `.swimPattern` of the lookup result); a
missing behavior-profile entry is stored silently as `undefined` and the
first failure happens inside the first tick, when `applySwimmingBehavior`
reads `pattern.cohesion`. -/
theorem claim_C7_counterexample :
    FishSchool.construct types7 pats7 2 = Except.ok ⟨cfg7, none⟩ ∧
    FishSchool.construct types7 pats7 0 =
      Except.error JsError.readSwimPatternOfUndefined ∧
    applySwimmingBehaviorE ⟨cfg7, none⟩ [fishStill] fishStill 0 camA
      0.5 0.5 0.5 = Except.error JsError.readCohesionOfUndefined :=
  ⟨rfl, rfl, rfl⟩

/-- C7, amended. A missing archetype entry does fail at construction (the
constructor's read of `swimPattern` on `undefined` throws), but a missing
behavior-profile entry does not: construction succeeds with an `undefined`
profile and the first failure is deferred to the first
`applySwimmingBehavior` call of the first tick. -/
theorem claim_C7_amended (types : ℕ → Option Config)
    (patterns : ℕ → Option Pattern) (t tMissing : ℕ) (cfg : Config)
    (fishes : List Fish) (fish : Fish) (i : ℕ) (cam : Vec3) (r1 r2 r3 : ℝ)
    (h : types t = some cfg) (hp : patterns cfg.swimPattern = none)
    (hm : types tMissing = none) :
    FishSchool.construct types patterns t = Except.ok ⟨cfg, none⟩ ∧
    applySwimmingBehaviorE ⟨cfg, none⟩ fishes fish i cam r1 r2 r3 =
      Except.error JsError.readCohesionOfUndefined ∧
    FishSchool.construct types patterns tMissing =
      Except.error JsError.readSwimPatternOfUndefined := by
  refine ⟨?_, rfl, ?_⟩
  · simp only [FishSchool.construct, h, hp]
  · simp only [FishSchool.construct, hm]

/-- C7, witness: the amended behavior on the concrete tables `types7` and
`pats7` (archetype key 2 present with missing profile, key 0 absent). -/
theorem claim_C7_witness :
    types7 2 = some cfg7 ∧ pats7 cfg7.swimPattern = none ∧ types7 0 = none ∧
      (FishSchool.construct types7 pats7 2 = Except.ok ⟨cfg7, none⟩ ∧
       applySwimmingBehaviorE ⟨cfg7, none⟩ [fishStill] fishStill 0 camA
         0.5 0.5 0.5 = Except.error JsError.readCohesionOfUndefined ∧
       FishSchool.construct types7 pats7 0 =
         Except.error JsError.readSwimPatternOfUndefined) :=
  ⟨rfl, rfl, rfl,
    claim_C7_amended types7 pats7 2 0 cfg7 [fishStill] fishStill 0 camA
      0.5 0.5 0.5 rfl rfl rfl⟩

lemma getD_set_updateFish_fields (cfg : Config) (pat : Pattern)
    (br : DepthBracket) (fs : List Fish) (i : ℕ) (dt : ℝ) (cam : Vec3)
    (r1 r2 r3 : ℝ) (j : ℕ) :
    (((fs.set i (updateFish cfg pat br fs i dt cam r1 r2 r3)).getD j
        dFish).scale = (fs.getD j dFish).scale) ∧
    (((fs.set i (updateFish cfg pat br fs i dt cam r1 r2 r3)).getD j
        dFish).phase = (fs.getD j dFish).phase) ∧
    (((fs.set i (updateFish cfg pat br fs i dt cam r1 r2 r3)).getD j
        dFish).swimFrequency = (fs.getD j dFish).swimFrequency) := by
  rcases eq_or_ne j i with rfl | hij
  · rcases lt_or_le j fs.length with hlt | hge
    · have hset : (fs.set j (updateFish cfg pat br fs j dt cam r1 r2 r3)).getD
          j dFish = updateFish cfg pat br fs j dt cam r1 r2 r3 := by
        rw [List.getD_eq_getElem?_getD, List.getElem?_set_self hlt]
        rfl
      rw [hset]
      exact ⟨rfl, rfl, rfl⟩
    · rw [List.set_eq_of_length_le hge]
      exact ⟨rfl, rfl, rfl⟩
  · have hne : (fs.set i (updateFish cfg pat br fs i dt cam r1 r2 r3)).getD j
        dFish = fs.getD j dFish := by
      rw [List.getD_eq_getElem?_getD, List.getD_eq_getElem?_getD,
        List.getElem?_set_ne (Ne.symm hij)]
    rw [hne]
    exact ⟨rfl, rfl, rfl⟩

lemma foldl_updateStep_fields (cfg : Config) (pat : Pattern)
    (br : DepthBracket) (t dt : ℝ) (cam : Vec3) (rand : ℕ → ℝ × ℝ × ℝ)
    (l : List ℕ) :
    ∀ acc : List Fish × List Transform × Option LookRot, ∀ j : ℕ,
      (((l.foldl (updateStep cfg pat br t dt cam rand) acc).1.getD j
          dFish).scale = (acc.1.getD j dFish).scale) ∧
      (((l.foldl (updateStep cfg pat br t dt cam rand) acc).1.getD j
          dFish).phase = (acc.1.getD j dFish).phase) ∧
      (((l.foldl (updateStep cfg pat br t dt cam rand) acc).1.getD j
          dFish).swimFrequency = (acc.1.getD j dFish).swimFrequency) := by
  induction l with
  | nil => intro acc j; exact ⟨rfl, rfl, rfl⟩
  | cons i l ih =>
      intro acc j
      rw [List.foldl_cons]
      have hstep := getD_set_updateFish_fields cfg pat br acc.1 i dt cam
        (rand i).1 (rand i).2.1 (rand i).2.2 j
      have hrec := ih (updateStep cfg pat br t dt cam rand acc i) j
      have hfst : (updateStep cfg pat br t dt cam rand acc i).1 =
          acc.1.set i (updateFish cfg pat br acc.1 i dt cam (rand i).1
            (rand i).2.1 (rand i).2.2) := rfl
      rw [hfst] at hrec
      exact ⟨hrec.1.trans hstep.1, hrec.2.1.trans hstep.2.1,
        hrec.2.2.trans hstep.2.2⟩

/-- C10. One full `FishSchool.update` tick changes only the position and
velocity of each creature record: the scale, phase and swim-frequency
fields of every instance are exactly what they were before the tick. -/
theorem claim_C10 (cfg : Config) (pat : Pattern) (br : DepthBracket)
    (s : SchoolState) (dt : ℝ) (cam : Vec3) (rand : ℕ → ℝ × ℝ × ℝ) (i : ℕ) :
    (((FishSchool.update cfg pat br s dt cam rand).1.fishes.getD i
        dFish).scale = (s.fishes.getD i dFish).scale) ∧
    (((FishSchool.update cfg pat br s dt cam rand).1.fishes.getD i
        dFish).phase = (s.fishes.getD i dFish).phase) ∧
    (((FishSchool.update cfg pat br s dt cam rand).1.fishes.getD i
        dFish).swimFrequency = (s.fishes.getD i dFish).swimFrequency) := by
  simp only [FishSchool.update]
  exact foldl_updateStep_fields cfg pat br (s.time + dt) dt cam rand
    (List.range s.fishes.length) (s.fishes, [], none) i

lemma clampSpeed_id {s : ℝ} {v : Vec3} (h1 : ¬(v.length > s))
    (h2 : ¬(v.length < s * 0.3)) : clampSpeed s v = v := by
  simp only [clampSpeed]
  rw [if_neg h1, if_neg h2]

lemma length_unitZ : (⟨0, 0, 1⟩ : Vec3).length = 1 := by
  rw [Vec3.length_axisZ]
  norm_num

lemma applySwim_fish8 (freq : ℝ) :
    applySwimmingBehavior cfgA patZ [fish8 freq] (fish8 freq) 0 camA
      0.5 0.5 0.5 = ⟨0, 0, 1⟩ := by
  have hd8 : (fish8 freq).position.distanceTo camA = 100 := dist_still_camA
  have hv8 : (fish8 freq).velocity = (⟨0, 0, 1⟩ : Vec3) := rfl
  simp only [applySwimmingBehavior, neighbors_single10, List.length_nil]
  rw [hd8, hv8]
  norm_num [patZ]
  exact clampSpeed_id (by rw [length_unitZ]; norm_num [cfgA])
    (by rw [length_unitZ]; norm_num [cfgA])

lemma wrap_zero : wrapCoord 0 = 0 := by
  rw [wrapCoord, if_neg]
  norm_num [fishWorldRadius]

lemma wrap_dt8 : wrapCoord dt8 = dt8 := by
  have hnn : (0:ℝ) ≤ dt8 := by
    rw [dt8]
    positivity
  have hlt : dt8 < 250 := by
    rw [dt8]
    have := Real.pi_lt_d2
    linarith
  rw [wrapCoord, if_neg]
  rw [fishWorldRadius, abs_of_nonneg hnn]
  linarith

lemma updateFish_fish8 (freq : ℝ) :
    updateFish cfgA patZ brA [fish8 freq] 0 dt8 camA 0.5 0.5 0.5 =
      ⟨⟨0, 0, dt8⟩, ⟨0, 0, 1⟩, 1, 0, freq⟩ := by
  simp only [updateFish]
  have hgetD : ([fish8 freq] : List Fish).getD 0 dFish = fish8 freq := rfl
  rw [hgetD, applySwim_fish8]
  have hpos : (fish8 freq).position.add ((⟨0, 0, 1⟩ : Vec3).smul dt8) =
      ⟨0, 0, dt8⟩ := by
    ext <;> norm_num [fish8, Vec3.add, Vec3.smul, Vec3.zero]
  rw [hpos]
  rw [if_neg (by norm_num [brA] : ¬((⟨0, 0, dt8⟩ : Vec3).y > -brA.depthMin))]
  rw [if_neg (by norm_num [brA] : ¬((⟨0, 0, dt8⟩ : Vec3).y < -brA.depthMax))]
  have hx : (⟨0, 0, dt8⟩ : Vec3).x = 0 := rfl
  have hz : (⟨0, 0, dt8⟩ : Vec3).z = dt8 := rfl
  rw [hx, hz, wrap_zero, wrap_dt8]
  simp [fish8]

lemma transforms_fish8 (freq : ℝ) :
    (FishSchool.update cfgA patZ brA ⟨0, [fish8 freq]⟩ dt8 camA rand05).2 =
      [⟨⟨0, 0, dt8⟩, 1,
        some ⟨⟨0, 0, 1⟩, Real.sin ((0 + dt8) * freq + 0) * 0.08,
          Real.sin (((0 + dt8) * freq + 0) * 1.5) * 0.12 * 0.3⟩⟩] := by
  simp only [FishSchool.update]
  rw [show List.range (⟨0, [fish8 freq]⟩ : SchoolState).fishes.length = [0]
    from rfl]
  rw [List.foldl_cons, List.foldl_nil]
  simp only [updateStep, rand05]
  rw [updateFish_fish8]
  rw [if_pos (by norm_num [Vec3.lengthSq] :
    (⟨0, 0, 1⟩ : Vec3).lengthSq > 0.0001)]
  rfl

/-- C8, counterexample. The claim says restoring only (position, velocity,
scale, phase) reproduces the next tick's emitted transform. The two
creatures below agree on that whole tuple and differ only in the
non-serialized `swimFrequency` jitter (6 vs 8), yet after one identical
tick of length pi/4 their emitted transforms differ: the body-wiggle
rotation is `sin(3*pi/2) * 0.08 = -0.08` for one and `sin(2*pi) * 0.08 = 0`
for the other. -/
theorem claim_C8_counterexample :
    (fish8 6).position = (fish8 8).position ∧
    (fish8 6).velocity = (fish8 8).velocity ∧
    (fish8 6).scale = (fish8 8).scale ∧
    (fish8 6).phase = (fish8 8).phase ∧
    (FishSchool.update cfgA patZ brA ⟨0, [fish8 6]⟩ dt8 camA rand05).2 ≠
      (FishSchool.update cfgA patZ brA ⟨0, [fish8 8]⟩ dt8 camA rand05).2 := by
  refine ⟨rfl, rfl, rfl, rfl, ?_⟩
  rw [transforms_fish8 6, transforms_fish8 8]
  intro h
  simp only [List.cons.injEq, and_true, Transform.mk.injEq, Option.some.injEq,
    LookRot.mk.injEq, true_and] at h
  have hbody := h.1
  have e6 : (0 + dt8) * 6 + 0 = Real.pi + Real.pi / 2 := by
    rw [dt8]; ring
  have e8 : (0 + dt8) * 8 + 0 = 2 * Real.pi := by
    rw [dt8]; ring
  rw [e6, e8, Real.sin_two_pi] at hbody
  have hsin : Real.sin (Real.pi + Real.pi / 2) = -1 := by
    rw [Real.sin_add, Real.sin_pi, Real.cos_pi, Real.sin_pi_div_two,
      Real.cos_pi_div_two]
    norm_num
  rw [hsin] at hbody
  norm_num at hbody

lemma getNeighbors_set_irrelevant (cfg : Config) (fs : List Fish) (i k : ℕ)
    (f g : Fish) (hp : f.position = g.position) :
    getNeighbors cfg (fs.set i f) f i k = getNeighbors cfg (fs.set i g) g i k := by
  simp only [getNeighbors, List.length_set]
  refine List.filterMap_congr (fun j _ => ?_)
  by_cases hc : (i + j * 7) % fs.length = i
  · rw [if_pos hc, if_pos hc]
  · rw [if_neg hc, if_neg hc]
    have hgd : (fs.set i f).getD ((i + j * 7) % fs.length) dFish =
        (fs.set i g).getD ((i + j * 7) % fs.length) dFish := by
      rw [List.getD_eq_getElem?_getD, List.getD_eq_getElem?_getD,
        List.getElem?_set_ne (Ne.symm hc), List.getElem?_set_ne (Ne.symm hc)]
    rw [hgd, hp]

lemma applySwim_pv (cfg : Config) (pat : Pattern) (fs : List Fish) (i : ℕ)
    (cam : Vec3) (r1 r2 r3 : ℝ) (f g : Fish) (hp : f.position = g.position)
    (hv : f.velocity = g.velocity) :
    applySwimmingBehavior cfg pat (fs.set i f) f i cam r1 r2 r3 =
      applySwimmingBehavior cfg pat (fs.set i g) g i cam r1 r2 r3 := by
  obtain ⟨fp, fv, a1, a2, a3⟩ := f
  obtain ⟨gp, gv, b1, b2, b3⟩ := g
  have hp' : fp = gp := hp
  have hv' : fv = gv := hv
  subst hp' hv'
  have hN := getNeighbors_set_irrelevant cfg fs i 10
    ⟨fp, fv, a1, a2, a3⟩ ⟨fp, fv, b1, b2, b3⟩ rfl
  simp only [applySwimmingBehavior, hN]

/-- C8, amended. The serialized tuple (position, velocity) fully determines
the next tick's physical state: two creature records agreeing on position
and velocity (with arbitrary scale, phase and swim frequency) produce the
same updated position and the same updated velocity under the same tick
inputs and noise draws. The emitted transform, however, additionally
depends on the non-serialized `swimFrequency` (and the school clock), so
the serialized tuple must include it to reproduce transforms (see the
counterexample). -/
theorem claim_C8_amended (cfg : Config) (pat : Pattern) (br : DepthBracket)
    (fs : List Fish) (i : ℕ) (dt : ℝ) (cam : Vec3) (r1 r2 r3 : ℝ)
    (f g : Fish) (hp : f.position = g.position) (hv : f.velocity = g.velocity) :
    (updateFish cfg pat br (fs.set i f) i dt cam r1 r2 r3).position =
      (updateFish cfg pat br (fs.set i g) i dt cam r1 r2 r3).position ∧
    (updateFish cfg pat br (fs.set i f) i dt cam r1 r2 r3).velocity =
      (updateFish cfg pat br (fs.set i g) i dt cam r1 r2 r3).velocity := by
  rcases lt_or_le i fs.length with hlt | hge
  · have hgf : (fs.set i f).getD i dFish = f := by
      rw [List.getD_eq_getElem?_getD, List.getElem?_set_self hlt]
      rfl
    have hgg : (fs.set i g).getD i dFish = g := by
      rw [List.getD_eq_getElem?_getD, List.getElem?_set_self hlt]
      rfl
    have hsw := applySwim_pv cfg pat fs i cam r1 r2 r3 f g hp hv
    constructor <;> simp only [updateFish, hgf, hgg, hsw, hp]
  · rw [List.set_eq_of_length_le hge, List.set_eq_of_length_le hge]
    exact ⟨rfl, rfl⟩

/-- C8, witness: two records sharing (position, velocity) but with
different scale, phase and swim frequency produce the same next-tick
position and velocity. -/
theorem claim_C8_witness :
    (⟨⟨1, 2, 3⟩, ⟨4, 5, 6⟩, 1, 0, 6⟩ : Fish).position =
      (⟨⟨1, 2, 3⟩, ⟨4, 5, 6⟩, 2, 1, 9⟩ : Fish).position ∧
    (⟨⟨1, 2, 3⟩, ⟨4, 5, 6⟩, 1, 0, 6⟩ : Fish).velocity =
      (⟨⟨1, 2, 3⟩, ⟨4, 5, 6⟩, 2, 1, 9⟩ : Fish).velocity ∧
    ((updateFish cfgA patA brA ([fishStill].set 0
        ⟨⟨1, 2, 3⟩, ⟨4, 5, 6⟩, 1, 0, 6⟩) 0 1 camA 0.5 0.5 0.5).position =
      (updateFish cfgA patA brA ([fishStill].set 0
        ⟨⟨1, 2, 3⟩, ⟨4, 5, 6⟩, 2, 1, 9⟩) 0 1 camA 0.5 0.5 0.5).position ∧
    (updateFish cfgA patA brA ([fishStill].set 0
        ⟨⟨1, 2, 3⟩, ⟨4, 5, 6⟩, 1, 0, 6⟩) 0 1 camA 0.5 0.5 0.5).velocity =
      (updateFish cfgA patA brA ([fishStill].set 0
        ⟨⟨1, 2, 3⟩, ⟨4, 5, 6⟩, 2, 1, 9⟩) 0 1 camA 0.5 0.5 0.5).velocity) :=
  ⟨rfl, rfl,
    claim_C8_amended cfgA patA brA [fishStill] 0 1 camA 0.5 0.5 0.5
      ⟨⟨1, 2, 3⟩, ⟨4, 5, 6⟩, 1, 0, 6⟩ ⟨⟨1, 2, 3⟩, ⟨4, 5, 6⟩, 2, 1, 9⟩
      rfl rfl⟩
